import Mathlib

/-!
LightProxy, a TLS-terminating round-robin byte relay.

Shallow embedding of `src/Proxy/main.cpp`.  Every library call the program
makes (sockets, OpenSSL, the logger, `exit`) is recorded as an `Event`; the
answers of the outside world (return codes, bytes delivered) are supplied by
environment records.  Each C++ function becomes a Lean function from its
arguments and the environment to its result and the list of events it
performed, in program order.
-/

namespace LightProxy

/-- One `char` of a `std::string` or of a stack buffer. -/
abbrev Byte := UInt8

/-- A byte sequence (`std::string` used as a byte container, or buffer contents). -/
abbrev Bytes := List Byte

/-- Size of the stack buffers `char buffer[4096]` in `handle_client` and
`forward_to_backend`. -/
def BUFFER_SIZE : Nat := 4096

/-- The listening port, `#define PORT 443`. -/
def PORT : Nat := 443

/-- Conversion of a `size_t` to the 32-bit `int` parameter of an OpenSSL call:
reduction modulo `2^32`, read as a two's-complement value. -/
def toInt32 (n : Nat) : Int :=
  if n % 4294967296 < 2147483648 then ((n % 4294967296 : Nat) : Int)
  else ((n % 4294967296 : Nat) : Int) - 4294967296

/-- Conversion of an `int` port to the `uint16_t` argument of `htons`. -/
def toUInt16 (p : Int) : Int := p % 65536

/-- Library calls performed by the program, with their arguments and, where the
program looks at it, the value they returned. -/
inductive Event where
  /-- A call `logger.log(msg)`. -/
  | log (msg : String)
  /-- A line on standard error written through `perror` or `std::cerr`. -/
  | stderr (msg : String)
  /-- A call `ERR_print_errors_fp(stderr)`. -/
  | errPrint
  /-- A call `accept(server_sock, ...)` returning `ret`. -/
  | accept (ret : Int)
  /-- A call `SSL_new(ctx)` for the connection on descriptor `fd`. -/
  | sslNew (fd : Int)
  /-- A call `SSL_set_fd(ssl, fd)`. -/
  | sslSetFd (fd : Int)
  /-- A call `SSL_accept(ssl)` (the TLS handshake) returning `ret`. -/
  | sslAccept (ret : Int)
  /-- A call `SSL_read(ssl, buffer, num)` returning `ret`. -/
  | sslRead (num : Nat) (ret : Int)
  /-- A call `load_balancer.getNextBackend()`. -/
  | getNextBackend
  /-- Entry into `forward_to_backend(request, host, port, logger)`. -/
  | forward (request : Bytes) (host : String) (port : Int)
  /-- A call `socket(AF_INET, SOCK_STREAM, 0)` returning `ret`. -/
  | socket (ret : Int)
  /-- A call `connect` to the address built from `host` (`inet_pton`) and the
  16-bit port `port` (`htons`), returning `ret`. -/
  | connect (host : String) (port : Int) (ret : Int)
  /-- A call `send(backend_sock, request, size, 0)` returning `ret`. -/
  | send (request : Bytes) (ret : Int)
  /-- A call `recv(backend_sock, buffer, num, 0)` returning `ret`. -/
  | recv (num : Nat) (ret : Int)
  /-- A call `close(backend_sock)`. -/
  | closeBackendSock (fd : Int)
  /-- A call `SSL_write(ssl, buf, num)`: the buffer handed over and the `int` length. -/
  | sslWrite (buf : Bytes) (num : Int)
  /-- A call `SSL_shutdown(ssl)` for the connection on descriptor `fd`. -/
  | sslShutdown (fd : Int)
  /-- A call `SSL_free(ssl)` for the connection on descriptor `fd`. -/
  | sslFree (fd : Int)
  /-- A call `close(client_sock)`. -/
  | closeClientSock (fd : Int)
  /-- A call `close(server_sock)`. -/
  | closeServerSock (fd : Int)
  /-- A call `SSL_CTX_free(ctx)` on the context with handle `ctx`. -/
  | sslCtxFree (ctx : Nat)
  /-- A call `EVP_cleanup()`. -/
  | evpCleanup
  /-- A call `exit(status)`. -/
  | exit (status : Int)
  /-- A call `X509_get1_ocsp(cert)`. -/
  | x509GetOcsp
  /-- A call `X509_email_free(ocsp_urls)`. -/
  | x509EmailFree
  /-- The calls `OCSP_REQUEST_new`, `OCSP_cert_to_id`, `OCSP_request_add0_id`. -/
  | ocspRequestNew
  /-- A call `OCSP_REQUEST_free(req)`. -/
  | ocspRequestFree
  /-- A call `BIO_new_connect(url)`. -/
  | bioNewConnect (url : String)
  /-- A call `BIO_free_all(bio)`. -/
  | bioFreeAll
  /-- A call `OCSP_sendreq_bio(bio, url, req)`. -/
  | ocspSendreq (url : String)
  /-- A call `OCSP_RESPONSE_free(resp)`. -/
  | ocspResponseFree
  /-- A call `SSL_CTX_set_tlsext_status_ocsp_resp(ctx, resp, len)`. -/
  | setStaple (resp : Bytes) (len : Int)
  /-- A call `std::this_thread::sleep_for(std::chrono::hours(h))`. -/
  | sleepHours (h : Nat)
  deriving DecidableEq, Repr

/-! ## The backend side: `forward_to_backend` -/

/-- What one `recv` call on the backend socket finds. -/
inductive RecvOutcome where
  /-- The kernel hands over these bytes. -/
  | data (bytes : Bytes)
  /-- The backend has closed the connection: `recv` returns `0`. -/
  | eof
  /-- The call fails: `recv` returns `-1`. -/
  | error
  deriving DecidableEq, Repr

/-- The answers of the outside world to the calls of one `forward_to_backend`. -/
structure BackendEnv where
  /-- Return value of `socket`. -/
  socketRet : Int
  /-- Return value of `connect`. -/
  connectRet : Int
  /-- Return value of `send`. -/
  sendRet : Int
  /-- Outcomes of the successive `recv` calls; once they are used up the
  connection is closed and `recv` returns `0`. -/
  reads : List RecvOutcome

/-- The library call `recv(sock, buffer, num, 0)`: the return value and the
bytes placed at the start of `buffer`.  Never more than `num` bytes are
delivered. -/
def recv (o : RecvOutcome) (num : Nat) : Int × Bytes :=
  match o with
  | .data bytes => (((bytes.take num).length : Nat), bytes.take num)
  | .eof => (0, [])
  | .error => (-1, [])

/-- Result of `forward_to_backend`: the returned `std::string` and the calls made. -/
structure ForwardResult where
  /-- The returned string. -/
  response : Bytes
  /-- The calls made, in program order. -/
  trace : List Event
  deriving DecidableEq, Repr

/-- The loop `while ((bytes_received = recv(...)) > 0) response.append(buffer, bytes_received);`
of `forward_to_backend`, started with the string `response`. -/
def recvLoop : List RecvOutcome → Bytes → ForwardResult
  | [], response => ⟨response, [Event.recv BUFFER_SIZE 0]⟩
  | o :: rest, response =>
    let bytes_received := (recv o BUFFER_SIZE).1
    let buffer := (recv o BUFFER_SIZE).2
    if bytes_received > 0 then
      let r := recvLoop rest (response ++ buffer.take bytes_received.toNat)
      ⟨r.response, Event.recv BUFFER_SIZE bytes_received :: r.trace⟩
    else
      ⟨response, [Event.recv BUFFER_SIZE bytes_received]⟩

/-- The function `forward_to_backend(request, backend_host, backend_port, logger)`. -/
def forward_to_backend (request : Bytes) (backend_host : String) (backend_port : Int)
    (env : BackendEnv) : ForwardResult :=
  let backend_sock := env.socketRet
  if backend_sock < 0 then
    ⟨[], [Event.socket backend_sock,
          Event.stderr "Backend socket creation failed",
          Event.log "Error: Backend socket creation failed"]⟩
  else if env.connectRet < 0 then
    ⟨[], [Event.socket backend_sock,
          Event.connect backend_host (toUInt16 backend_port) env.connectRet,
          Event.stderr "Backend connection failed",
          Event.log "Error: Backend connection failed",
          Event.closeBackendSock backend_sock]⟩
  else
    let r := recvLoop env.reads []
    ⟨r.response,
      [Event.socket backend_sock,
       Event.connect backend_host (toUInt16 backend_port) env.connectRet,
       Event.send request env.sendRet]
      ++ r.trace ++ [Event.closeBackendSock backend_sock]⟩

/-! ## The backend pool -/

/-- Modelled from the spec: the class `LoadBalancer` of `LoadBalancer.h`, which
is not part of the sources at hand.  The spec (sections 3 and 4.3) describes it
as an ordered list of `(host, port)` backends with a cursor. -/
structure LoadBalancer where
  /-- The static backend list. -/
  backends : List (String × Int)
  /-- The round-robin cursor. -/
  cursor : Nat
  deriving DecidableEq, Repr

/-- Modelled from the spec: `LoadBalancer::getNextBackend` (spec 4.3, `next()`):
returns the backend at `cursor`, then advances `cursor = (cursor + 1) mod length`. -/
def LoadBalancer.getNextBackend (lb : LoadBalancer) : (String × Int) × LoadBalancer :=
  (lb.backends.getD lb.cursor ("", 0),
   { lb with cursor := (lb.cursor + 1) % lb.backends.length })

/-! ## The client side: `handle_client` -/

/-- The answers of the outside world during one client session. -/
structure ClientEnv where
  /-- Return value of `SSL_accept`. -/
  handshakeRet : Int
  /-- When `some e`, `SSL_read` fails and returns `-e` (`0` or negative). -/
  readFault : Option Nat
  /-- The TLS records the client sends, as decrypted payloads in order of
  arrival; their concatenation is the byte sequence the client offers. -/
  records : List Bytes
  /-- Return value of `SSL_write`. -/
  writeRet : Int
  /-- The network as seen from this session: how the backend at a given host
  and port answers. -/
  backend : String → Int → BackendEnv

/-- The record one `SSL_read` works on: the first record that carries
payload (empty records are passed over); `[]` when there is none. -/
def firstRecord : List Bytes → Bytes
  | [] => []
  | r :: rest => if r = [] then firstRecord rest else r

/-- The library call `SSL_read(ssl, buffer, num)`: the return value and the
bytes placed at the start of `buffer`.  One call hands over payload of one TLS
record only, at most `num` bytes of it; what follows in the record or in later
records stays unread.  When no record carries payload the peer has closed and
the call returns `0`. -/
def SSL_read (c : ClientEnv) (num : Nat) : Int × Bytes :=
  match c.readFault with
  | some e => (-(e : Int), [])
  | none => ((((firstRecord c.records).take num).length : Nat),
             (firstRecord c.records).take num)

/-- The log entry written by `handle_client` before it forwards. -/
def forwardingMessage (backend_host : String) (backend_port : Int) : String :=
  "Forwarding request to backend: " ++ backend_host ++ ":" ++ toString backend_port

/-- The function `handle_client(client_sock, ssl, load_balancer, logger)`:
the new state of the load balancer and the calls made. -/
def handle_client (_client_sock : Int) (c : ClientEnv) (load_balancer : LoadBalancer) :
    LoadBalancer × List Event :=
  let bytes := (SSL_read c BUFFER_SIZE).1
  let buffer := (SSL_read c BUFFER_SIZE).2
  if bytes ≤ 0 then
    (load_balancer,
      [Event.sslRead BUFFER_SIZE bytes,
       Event.errPrint,
       Event.log "Error: Failed to read from SSL connection"])
  else
    let request : Bytes := buffer.take bytes.toNat
    let backend_host := load_balancer.getNextBackend.1.1
    let backend_port := load_balancer.getNextBackend.1.2
    let fwd := forward_to_backend request backend_host backend_port
      (c.backend backend_host backend_port)
    let response := fwd.response
    (load_balancer.getNextBackend.2,
      [Event.sslRead BUFFER_SIZE bytes,
       Event.getNextBackend,
       Event.log (forwardingMessage backend_host backend_port),
       Event.forward request backend_host backend_port]
      ++ fwd.trace ++
      [Event.sslWrite response (toInt32 response.length),
       Event.log "Response sent to client"])

/-! ## The accept loop of `run_server` -/

/-- The answers of the outside world during one iteration of the accept loop. -/
structure AcceptEnv where
  /-- Return value of `accept`: the client descriptor, negative on failure. -/
  acceptRet : Int
  /-- The session on that connection. -/
  client : ClientEnv

/-- One iteration of the loop `while (true) { ... }` of `run_server`, in a run
in which every library call returns to the program: the new state of the load
balancer and the calls made.  No path of the body leaves the loop; each one
ends at `continue` or at the end of the body.  A call that does not return,
because a signal ends the process inside it, is the subject of
`run_server_iteration_process`. -/
def run_server_iteration (a : AcceptEnv) (load_balancer : LoadBalancer) :
    LoadBalancer × List Event :=
  let client_sock := a.acceptRet
  if client_sock < 0 then
    (load_balancer,
      [Event.accept client_sock,
       Event.stderr "Client accept failed",
       Event.log "Warning: Client accept failed"])
  else if a.client.handshakeRet ≤ 0 then
    (load_balancer,
      [Event.accept client_sock,
       Event.sslNew client_sock,
       Event.sslSetFd client_sock,
       Event.sslAccept a.client.handshakeRet,
       Event.errPrint,
       Event.log "Error: SSL handshake failed",
       Event.sslShutdown client_sock,
       Event.sslFree client_sock,
       Event.closeClientSock client_sock])
  else
    let h := handle_client client_sock a.client load_balancer
    (h.1,
      [Event.accept client_sock,
       Event.sslNew client_sock,
       Event.sslSetFd client_sock,
       Event.sslAccept a.client.handshakeRet]
      ++ h.2 ++
      [Event.sslShutdown client_sock,
       Event.sslFree client_sock,
       Event.closeClientSock client_sock])

/-- The accept loop of `run_server` run for as many iterations as there are
entries in the list: the load balancer is threaded through, the calls are
appended in order. -/
def run_server_loop : List AcceptEnv → LoadBalancer → LoadBalancer × List Event
  | [], load_balancer => (load_balancer, [])
  | a :: rest, load_balancer =>
    let it := run_server_iteration a load_balancer
    let r := run_server_loop rest it.1
    (r.1, it.2 ++ r.2)

/-! ## Shutdown: `signal_handler` -/

/-- The two globals `SSL_CTX* ctx` and `int server_sock`. -/
structure Globals where
  /-- The TLS context, `none` for `nullptr`, otherwise its handle. -/
  ctx : Option Nat
  /-- The listening socket, `-1` before it is created. -/
  server_sock : Int
  deriving DecidableEq, Repr

/-- The function `signal_handler(signal)`: the calls made, the last of which is
`exit(signal)`. -/
def signal_handler (g : Globals) (signal : Int) : List Event :=
  [Event.stderr ("Received signal: " ++ toString signal ++ ", shutting down server...")]
  ++ (if g.server_sock ≥ 0 then
        [Event.closeServerSock g.server_sock, Event.stderr "Server socket closed."]
      else [])
  ++ (match g.ctx with
      | some h => [Event.sslCtxFree h, Event.evpCleanup]
      | none => [])
  ++ [Event.exit signal]

/-- The status a parent process observes after `exit(status)`: the low eight bits. -/
def reportedStatus (status : Int) : Int := status % 256

/-- The argument of the first `exit` call of a trace, if there is one. -/
def exitArgument : List Event → Option Int
  | [] => none
  | Event.exit status :: _ => some status
  | _ :: rest => exitArgument rest

/-! ## OCSP refresh: `fetch_ocsp_response` and `schedule_ocsp_updates` -/

/-- An `OCSP_RESPONSE` as far as the program looks at it. -/
structure OcspResponse where
  /-- Return value of `i2d_OCSP_RESPONSE(resp, nullptr)`. -/
  derLen : Int
  /-- The DER encoding written by `i2d_OCSP_RESPONSE(resp, &p)`. -/
  der : Bytes
  deriving DecidableEq, Repr

/-- The answers of the outside world during one `fetch_ocsp_response`. -/
structure OcspEnv where
  /-- Result of `X509_get1_ocsp(cert)`: `none` for a null stack. -/
  urls : Option (List String)
  /-- Whether `BIO_new_connect` returns a non-null `BIO`. -/
  bioOk : Bool
  /-- Result of `OCSP_sendreq_bio`: `none` for `nullptr`. -/
  resp : Option OcspResponse
  deriving DecidableEq, Repr

/-- Result of `fetch_ocsp_response`: the returned pointer (`none` for
`nullptr`), the value left in the reference parameter `ocsp_resp_len`, and the
calls made. -/
structure FetchResult where
  /-- The returned buffer. -/
  data : Option Bytes
  /-- The value of `ocsp_resp_len` on return. -/
  ocsp_resp_len : Int
  /-- The calls made, in program order. -/
  trace : List Event
  deriving DecidableEq, Repr

/-- The function `fetch_ocsp_response(ctx, ocsp_resp_len, logger)`. -/
def fetch_ocsp_response (env : OcspEnv) (ocsp_resp_len : Int) : FetchResult :=
  match env.urls with
  | none =>
    ⟨none, ocsp_resp_len,
      [Event.x509GetOcsp,
       Event.stderr "No OCSP responder URL found in certificate.",
       Event.log "Warning: No OCSP responder URL found in certificate",
       Event.x509EmailFree]⟩
  | some [] =>
    ⟨none, ocsp_resp_len,
      [Event.x509GetOcsp,
       Event.stderr "No OCSP responder URL found in certificate.",
       Event.log "Warning: No OCSP responder URL found in certificate",
       Event.x509EmailFree]⟩
  | some (url :: _) =>
    if !env.bioOk then
      ⟨none, ocsp_resp_len,
        [Event.x509GetOcsp, Event.ocspRequestNew, Event.bioNewConnect url,
         Event.ocspRequestFree,
         Event.stderr "Failed to connect to OCSP responder",
         Event.log "Error: Failed to connect to OCSP responder"]⟩
    else
      match env.resp with
      | none =>
        ⟨none, ocsp_resp_len,
          [Event.x509GetOcsp, Event.ocspRequestNew, Event.bioNewConnect url,
           Event.ocspSendreq url,
           Event.stderr "OCSP request failed.",
           Event.log "Error: OCSP request failed",
           Event.bioFreeAll, Event.ocspRequestFree]⟩
      | some resp =>
        ⟨some resp.der, resp.derLen,
          [Event.x509GetOcsp, Event.ocspRequestNew, Event.bioNewConnect url,
           Event.ocspSendreq url,
           Event.bioFreeAll, Event.ocspResponseFree, Event.ocspRequestFree,
           Event.x509EmailFree]⟩

/-- One iteration of the loop of `schedule_ocsp_updates`: the staple held by
the TLS context afterwards and the calls made.  `setterDefined` says whether the
preprocessor symbol `SSL_CTX_set_tlsext_status_ocsp_resp` is defined, which
decides whether the guarded block is compiled at all. -/
def schedule_ocsp_updates_cycle (setterDefined : Bool) (env : OcspEnv)
    (staple : Option Bytes) : Option Bytes × List Event :=
  let f := fetch_ocsp_response env 0
  match f.data with
  | some ocsp_response =>
    if f.ocsp_resp_len > 0 ∧ setterDefined then
      (some (ocsp_response.take f.ocsp_resp_len.toNat),
        f.trace ++ [Event.setStaple ocsp_response f.ocsp_resp_len,
                    Event.log "OCSP response updated",
                    Event.sleepHours 24])
    else
      (staple, f.trace ++ [Event.sleepHours 24])
  | none => (staple, f.trace ++ [Event.sleepHours 24])

/-! ## Reading traces -/

/-- The log entries of a trace, in order. -/
def logEntries (tr : List Event) : List String :=
  tr.filterMap fun e => match e with
    | Event.log msg => some msg
    | _ => none

/-- The return values of the `recv` calls, in order. -/
def recvReturns (tr : List Event) : List Int :=
  tr.filterMap fun e => match e with
    | Event.recv _ ret => some ret
    | _ => none

/-- The arguments (buffer, length) of the `SSL_write` calls, in order. -/
def sslWriteArgs (tr : List Event) : List (Bytes × Int) :=
  tr.filterMap fun e => match e with
    | Event.sslWrite buf num => some (buf, num)
    | _ => none

/-- The byte sequences written to the TLS session: for each `SSL_write` call
the first `num` bytes of its buffer. -/
def sslWritten (tr : List Event) : List Bytes :=
  (sslWriteArgs tr).map fun w => w.1.take w.2.toNat

/-- Whether a call touches a backend (socket, connect, send, recv, close). -/
def Event.isBackendCall : Event → Bool
  | Event.forward _ _ _ => true
  | Event.socket _ => true
  | Event.connect _ _ _ => true
  | Event.send _ _ => true
  | Event.recv _ _ => true
  | Event.closeBackendSock _ => true
  | _ => false

/-- Whether a call is an `SSL_write`. -/
def Event.isSslWrite : Event → Bool
  | Event.sslWrite _ _ => true
  | _ => false

/-- Whether a call is an `accept`. -/
def Event.isAccept : Event → Bool
  | Event.accept _ => true
  | _ => false

/-- Whether a call installs an OCSP staple. -/
def Event.isSetStaple : Event → Bool
  | Event.setStaple _ _ => true
  | _ => false

/-- The steps of a session, in the order of the session state machine; the
teardown consists of the last three. -/
inductive Op where
  | handshake
  | requestRead
  | backendSelect
  | backendForward
  | responseWrite
  | tlsShutdown
  | tlsFree
  | socketClose
  deriving DecidableEq, Repr

/-- The session step a call belongs to, if any. -/
def opOf : Event → Option Op
  | Event.sslAccept _ => some Op.handshake
  | Event.sslRead _ _ => some Op.requestRead
  | Event.getNextBackend => some Op.backendSelect
  | Event.forward _ _ _ => some Op.backendForward
  | Event.sslWrite _ _ => some Op.responseWrite
  | Event.sslShutdown _ => some Op.tlsShutdown
  | Event.sslFree _ => some Op.tlsFree
  | Event.closeClientSock _ => some Op.socketClose
  | _ => none

/-- The session steps of a trace, in order. -/
def sessionOps (tr : List Event) : List Op := tr.filterMap opOf

/-- The steps before teardown, in state-machine order. -/
def workOrder : List Op :=
  [Op.handshake, Op.requestRead, Op.backendSelect, Op.backendForward, Op.responseWrite]

/-- The teardown steps, in order. -/
def teardownOrder : List Op := [Op.tlsShutdown, Op.tlsFree, Op.socketClose]

/-- Whether a call is one that `forward_to_backend` can make. -/
def Event.isConnectorCall : Event → Bool
  | Event.socket _ => true
  | Event.connect _ _ _ => true
  | Event.send _ _ => true
  | Event.recv _ _ => true
  | Event.closeBackendSock _ => true
  | Event.stderr _ => true
  | Event.log _ => true
  | _ => false

/-! ## Signals during a session -/

/-- The number of the signal `SIGPIPE`. -/
def SIGPIPE : Int := 13

/-- Whether a call is an `SSL_shutdown`. -/
def Event.isSslShutdown : Event → Bool
  | Event.sslShutdown _ => true
  | _ => false

/-- The call of a session in which writing to the client socket raises
`SIGPIPE`, because the client has reset the connection.  `main` installs
`signal_handler` for `SIGINT`, `SIGTERM` and `SIGSEGV` only and nothing ignores
`SIGPIPE`, so the default action applies: the process ends inside the call. -/
inductive Sigpipe where
  /-- No write to the client socket raises the signal. -/
  | never
  /-- The signal is raised inside `SSL_write`. -/
  | inSslWrite
  /-- The signal is raised inside `SSL_shutdown`, which sends the close alert. -/
  | inSslShutdown
  deriving DecidableEq, Repr

/-- The server process after some iterations of the accept loop. -/
inductive ProcessState where
  /-- The process is in the loop, with this load balancer. -/
  | running (load_balancer : LoadBalancer)
  /-- The process was ended by this signal. -/
  | killed (signal : Int)
  deriving DecidableEq, Repr

/-- The calls of a trace up to and including the first one that satisfies `p`:
what a process has done when it ends inside that call. -/
def upToCall (p : Event → Bool) : List Event → List Event
  | [] => []
  | e :: rest => if p e then [e] else e :: upToCall p rest

/-- One iteration of the accept loop as the process goes through it.  Once the
handshake has completed, `SSL_write` and `SSL_shutdown` write to the client
socket; when such a write raises `SIGPIPE` the process ends inside the call and
none of the calls after it in the loop body is made. -/
def run_server_iteration_process (a : AcceptEnv) (sp : Sigpipe) (load_balancer : LoadBalancer) :
    ProcessState × List Event :=
  let it := run_server_iteration a load_balancer
  if 0 ≤ a.acceptRet ∧ 0 < a.client.handshakeRet then
    match sp with
    | Sigpipe.never => (ProcessState.running it.1, it.2)
    | Sigpipe.inSslWrite =>
      if it.2.any Event.isSslWrite then
        (ProcessState.killed SIGPIPE, upToCall Event.isSslWrite it.2)
      else (ProcessState.running it.1, it.2)
    | Sigpipe.inSslShutdown =>
      if it.2.any Event.isSslShutdown then
        (ProcessState.killed SIGPIPE, upToCall Event.isSslShutdown it.2)
      else (ProcessState.running it.1, it.2)
  else (ProcessState.running it.1, it.2)

/-- The accept loop as the process goes through it, for the connections of the
list in order: it stops for good at the first iteration that ends the process. -/
def run_server_process : List (AcceptEnv × Sigpipe) → LoadBalancer → ProcessState × List Event
  | [], load_balancer => (ProcessState.running load_balancer, [])
  | (a, sp) :: rest, load_balancer =>
    match run_server_iteration_process a sp load_balancer with
    | (ProcessState.running lb1, tr) =>
      ((run_server_process rest lb1).1, tr ++ (run_server_process rest lb1).2)
    | (ProcessState.killed signal, tr) => (ProcessState.killed signal, tr)

/-! ## Concrete environments -/

/-- A backend pool with the two backends configured in `main`. -/
def mainPool : LoadBalancer := ⟨[("127.0.0.1", 8081), ("127.0.0.1", 8082)], 0⟩

/-- A backend that refuses the connection: `connect` returns `-1`. -/
def refusingBackend : BackendEnv := ⟨3, -1, 0, []⟩

/-- A backend that accepts the connection and the request and closes without
sending a byte. -/
def silentBackend : BackendEnv := ⟨3, 0, 1, [RecvOutcome.eof]⟩

/-- A backend that answers in two reads and closes; a further read is never reached. -/
def talkingBackend : BackendEnv :=
  ⟨3, 0, 3, [RecvOutcome.data [72, 84], RecvOutcome.data [0, 80], RecvOutcome.eof,
             RecvOutcome.data [9]]⟩

/-- A client that completes the handshake and offers three bytes. -/
def goodClient : ClientEnv := ⟨1, none, [[71, 69, 84]], 4, fun _ _ => talkingBackend⟩

/-- A client whose handshake fails. -/
def badHandshakeClient : ClientEnv :=
  ⟨-1, none, [[71, 69, 84]], 4, fun _ _ => talkingBackend⟩

/-- A client that completes the handshake and closes without sending. -/
def muteClient : ClientEnv := ⟨1, none, [], 0, fun _ _ => talkingBackend⟩

/-- A backend that sends 524288 chunks of 4096 zero bytes (2 GiB in all) and closes. -/
def floodBackend : BackendEnv :=
  ⟨3, 0, 1, List.map RecvOutcome.data (List.replicate 524288 (List.replicate 4096 0))
             ++ [RecvOutcome.eof]⟩

/-- A client that completes the handshake and sends one byte, served by `floodBackend`. -/
def floodClient : ClientEnv := ⟨1, none, [[71]], 0, fun _ _ => floodBackend⟩

/-- The globals of a running server: a TLS context and an open listening socket. -/
def runningServer : Globals := ⟨some 1, 3⟩

/-- A certificate without OCSP responder URL: the URL stack exists and is empty. -/
def noResponderCert : OcspEnv := ⟨some [], true, some ⟨3, [48, 1, 0]⟩⟩

/-! ## Vocabulary of the session -/

/-- The request of a session: the first `bytes` bytes of the buffer filled by
the single `SSL_read`. -/
def sessionRequest (c : ClientEnv) : Bytes :=
  (SSL_read c BUFFER_SIZE).2.take (SSL_read c BUFFER_SIZE).1.toNat

/-- The value `forward_to_backend` returns in a session, for the backend the
load balancer hands out. -/
def sessionResponse (c : ClientEnv) (lb : LoadBalancer) : Bytes :=
  (forward_to_backend (sessionRequest c) lb.getNextBackend.1.1 lb.getNextBackend.1.2
    (c.backend lb.getNextBackend.1.1 lb.getNextBackend.1.2)).response

/-! ## The backend connector -/

theorem recvLoop_chunks (chunks : List Bytes)
    (hch : ∀ c ∈ chunks, 1 ≤ c.length ∧ c.length ≤ BUFFER_SIZE)
    (later : List RecvOutcome) (acc : Bytes) :
    recvLoop (chunks.map RecvOutcome.data ++ RecvOutcome.eof :: later) acc
      = ⟨acc ++ chunks.flatten,
         chunks.map (fun c => Event.recv BUFFER_SIZE (c.length : Nat))
           ++ [Event.recv BUFFER_SIZE 0]⟩ := by
  induction chunks generalizing acc with
  | nil => simp [recvLoop, recv]
  | cons c cs ih =>
    have hc := hch c (List.mem_cons_self _ _)
    have hcs : ∀ d ∈ cs, 1 ≤ d.length ∧ d.length ≤ BUFFER_SIZE :=
      fun d hd => hch d (List.mem_cons_of_mem _ hd)
    have htake : c.take BUFFER_SIZE = c := List.take_of_length_le hc.2
    have hpos : (0 : Int) < (c.length : Nat) := by
      have : 0 < c.length := hc.1
      exact_mod_cast this
    simp only [List.map_cons, List.cons_append]
    rw [recvLoop]
    simp only [recv, htake, hpos, gt_iff_lt, if_true, Int.toNat_ofNat, List.take_length]
    rw [ih hcs]
    simp

theorem forward_to_backend_connected (request : Bytes) (host : String) (port : Int)
    (env : BackendEnv) (hs : 0 ≤ env.socketRet) (hc : 0 ≤ env.connectRet) :
    forward_to_backend request host port env
      = ⟨(recvLoop env.reads []).response,
          [Event.socket env.socketRet,
           Event.connect host (toUInt16 port) env.connectRet,
           Event.send request env.sendRet]
          ++ (recvLoop env.reads []).trace ++ [Event.closeBackendSock env.socketRet]⟩ := by
  simp [forward_to_backend, not_lt.mpr hs, not_lt.mpr hc]

theorem forward_to_backend_chunks (request : Bytes) (host : String) (port : Int)
    (env : BackendEnv) (chunks : List Bytes) (later : List RecvOutcome)
    (hs : 0 ≤ env.socketRet) (hc : 0 ≤ env.connectRet)
    (hch : ∀ c ∈ chunks, 1 ≤ c.length ∧ c.length ≤ BUFFER_SIZE)
    (hr : env.reads = chunks.map RecvOutcome.data ++ RecvOutcome.eof :: later) :
    forward_to_backend request host port env
      = ⟨chunks.flatten,
          [Event.socket env.socketRet,
           Event.connect host (toUInt16 port) env.connectRet,
           Event.send request env.sendRet]
          ++ (chunks.map (fun c => Event.recv BUFFER_SIZE (c.length : Nat))
              ++ [Event.recv BUFFER_SIZE 0])
          ++ [Event.closeBackendSock env.socketRet]⟩ := by
  rw [forward_to_backend_connected request host port env hs hc, hr,
    recvLoop_chunks chunks hch later []]
  simp

theorem recvReturns_append (xs ys : List Event) :
    recvReturns (xs ++ ys) = recvReturns xs ++ recvReturns ys := by
  simp [recvReturns, List.filterMap_append]

theorem recvReturns_chunks (chunks : List Bytes) :
    recvReturns (chunks.map (fun c => Event.recv BUFFER_SIZE (c.length : Nat)))
      = chunks.map (fun c => ((c.length : Nat) : Int)) := by
  induction chunks with
  | nil => rfl
  | cons c cs ih =>
    simp only [List.map_cons]
    rw [← ih]
    rfl

/-- Claim C4.  After a successful connect, when the backend's reads deliver the
chunks `c1, ..., ck` (each of 1 to 4096 bytes) and then end of stream,
`forward_to_backend` returns exactly `c1 ++ ... ++ ck`; its `recv` calls return
the chunk lengths in order and then `0`, and that `0` is the last `recv`:
whatever the backend would deliver later is never read. -/
theorem forward_to_backend_concatenates (request : Bytes) (host : String) (port : Int)
    (env : BackendEnv) (chunks : List Bytes) (later : List RecvOutcome)
    (hs : 0 ≤ env.socketRet) (hc : 0 ≤ env.connectRet)
    (hch : ∀ c ∈ chunks, 1 ≤ c.length ∧ c.length ≤ 4096)
    (hr : env.reads = chunks.map RecvOutcome.data ++ RecvOutcome.eof :: later) :
    (forward_to_backend request host port env).response = chunks.flatten
    ∧ recvReturns (forward_to_backend request host port env).trace
        = chunks.map (fun c => ((c.length : Nat) : Int)) ++ [0]
    ∧ (recvReturns (forward_to_backend request host port env).trace).length
        = chunks.length + 1 := by
  have hret : recvReturns (forward_to_backend request host port env).trace
      = chunks.map (fun c => ((c.length : Nat) : Int)) ++ [0] := by
    rw [forward_to_backend_chunks request host port env chunks later hs hc hch hr]
    simp only [recvReturns_append, recvReturns_chunks]
    simp [recvReturns]
  refine ⟨?_, hret, ?_⟩
  · rw [forward_to_backend_chunks request host port env chunks later hs hc hch hr]
  · rw [hret]
    simp

/-- Witness for claim C4: a backend answering in two reads, with a stray third
chunk after the end of stream. -/
theorem forward_to_backend_concatenates_witness :
    (forward_to_backend [71] "127.0.0.1" 8081 talkingBackend).response
        = [[72, 84], [0, 80]].flatten
    ∧ recvReturns (forward_to_backend [71] "127.0.0.1" 8081 talkingBackend).trace
        = [[72, 84], [0, 80]].map (fun c => ((c.length : Nat) : Int)) ++ [0]
    ∧ (recvReturns (forward_to_backend [71] "127.0.0.1" 8081 talkingBackend).trace).length
        = [[72, 84], [0, 80]].length + 1 :=
  forward_to_backend_concatenates [71] "127.0.0.1" 8081 talkingBackend
    [[72, 84], [0, 80]] [RecvOutcome.data [9]] (by decide) (by decide) (by decide) rfl

/-- Claim C1, as stated, fails: a refused connection and a successful exchange
in which the backend closed without sending a byte give `handle_client` the same
value, the empty string. -/
theorem forward_to_backend_failure_not_distinct :
    ¬ ((forward_to_backend [71] "127.0.0.1" 8081 refusingBackend).response
        ≠ (forward_to_backend [71] "127.0.0.1" 8081 silentBackend).response) := by
  decide

/-- Claim C1, amended.  When socket creation or connect fails,
`forward_to_backend` returns the empty string after logging exactly one entry,
"Error: Backend socket creation failed" or "Error: Backend connection failed".
A successful exchange in which the backend closes without sending a byte also
returns the empty string and logs nothing.  The returned values are equal; only
the log tells the two apart. -/
theorem forward_to_backend_failure_is_empty (request : Bytes) (host : String) (port : Int)
    (bad ok : BackendEnv) (later : List RecvOutcome)
    (hbad : bad.socketRet < 0 ∨ bad.connectRet < 0)
    (hs : 0 ≤ ok.socketRet) (hc : 0 ≤ ok.connectRet)
    (hr : ok.reads = RecvOutcome.eof :: later) :
    (forward_to_backend request host port bad).response = []
    ∧ (forward_to_backend request host port ok).response = []
    ∧ (forward_to_backend request host port bad).response
        = (forward_to_backend request host port ok).response
    ∧ (logEntries (forward_to_backend request host port bad).trace
          = ["Error: Backend socket creation failed"]
        ∨ logEntries (forward_to_backend request host port bad).trace
          = ["Error: Backend connection failed"])
    ∧ logEntries (forward_to_backend request host port ok).trace = [] := by
  have hok : forward_to_backend request host port ok
      = ⟨[], [Event.socket ok.socketRet,
              Event.connect host (toUInt16 port) ok.connectRet,
              Event.send request ok.sendRet,
              Event.recv BUFFER_SIZE 0,
              Event.closeBackendSock ok.socketRet]⟩ := by
    have := forward_to_backend_chunks request host port ok [] later hs hc (by simp) (by simpa using hr)
    simpa using this
  have hbadr : (forward_to_backend request host port bad).response = [] := by
    unfold forward_to_backend
    by_cases h1 : bad.socketRet < 0
    · simp [h1]
    · have h2 : bad.connectRet < 0 := hbad.resolve_left h1
      simp [h1, h2]
  have hbadl : logEntries (forward_to_backend request host port bad).trace
          = ["Error: Backend socket creation failed"]
        ∨ logEntries (forward_to_backend request host port bad).trace
          = ["Error: Backend connection failed"] := by
    unfold forward_to_backend
    by_cases h1 : bad.socketRet < 0
    · left
      simp [h1, logEntries]
    · have h2 : bad.connectRet < 0 := hbad.resolve_left h1
      right
      simp [h1, h2, logEntries]
  refine ⟨hbadr, ?_, ?_, hbadl, ?_⟩
  · rw [hok]
  · rw [hbadr, hok]
  · rw [hok]
    simp [logEntries]

/-- Witness for amended claim C1: a refused connection against a silent backend. -/
theorem forward_to_backend_failure_is_empty_witness :
    (forward_to_backend [71] "127.0.0.1" 8081 refusingBackend).response = []
    ∧ (forward_to_backend [71] "127.0.0.1" 8081 silentBackend).response = []
    ∧ (forward_to_backend [71] "127.0.0.1" 8081 refusingBackend).response
        = (forward_to_backend [71] "127.0.0.1" 8081 silentBackend).response
    ∧ (logEntries (forward_to_backend [71] "127.0.0.1" 8081 refusingBackend).trace
          = ["Error: Backend socket creation failed"]
        ∨ logEntries (forward_to_backend [71] "127.0.0.1" 8081 refusingBackend).trace
          = ["Error: Backend connection failed"])
    ∧ logEntries (forward_to_backend [71] "127.0.0.1" 8081 silentBackend).trace = [] :=
  forward_to_backend_failure_is_empty [71] "127.0.0.1" 8081 refusingBackend silentBackend []
    (Or.inr (by decide)) (by decide) (by decide) rfl

/-! ## The session handler -/

theorem filterMap_eq_nil_of_forall {α β : Type} (f : α → Option β) (l : List α)
    (h : ∀ e ∈ l, f e = none) : l.filterMap f = [] := by
  induction l with
  | nil => rfl
  | cons a as ih =>
    have ha : f a = none := h a (List.mem_cons_self _ _)
    have has : ∀ e ∈ as, f e = none := fun e he => h e (List.mem_cons_of_mem _ he)
    simp [List.filterMap_cons, ha, ih has]

theorem recvLoop_trace_recv (reads : List RecvOutcome) (acc : Bytes) :
    ∀ e ∈ (recvLoop reads acc).trace, ∃ n ret, e = Event.recv n ret := by
  induction reads generalizing acc with
  | nil =>
    intro e he
    simp only [recvLoop, List.mem_singleton] at he
    exact ⟨_, _, he⟩
  | cons o rest ih =>
    intro e he
    rw [recvLoop] at he
    by_cases hpos : (recv o BUFFER_SIZE).1 > 0
    · simp only [hpos, if_true, List.mem_cons] at he
      rcases he with he | he
      · exact ⟨_, _, he⟩
      · exact ih _ e he
    · simp only [hpos, if_false, List.mem_singleton] at he
      exact ⟨_, _, he⟩

theorem forward_to_backend_trace_connector (request : Bytes) (host : String) (port : Int)
    (env : BackendEnv) :
    ∀ e ∈ (forward_to_backend request host port env).trace, e.isConnectorCall = true := by
  intro e he
  unfold forward_to_backend at he
  by_cases h1 : env.socketRet < 0
  · simp only [h1, if_true, List.mem_cons, List.mem_singleton, List.not_mem_nil, or_false] at he
    rcases he with he | he | he <;> subst he <;> rfl
  · by_cases h2 : env.connectRet < 0
    · simp only [h1, h2, if_true, if_false, List.mem_cons, List.mem_singleton,
        List.not_mem_nil, or_false] at he
      rcases he with he | he | he | he | he <;> subst he <;> rfl
    · simp only [h1, h2, if_false, List.mem_append, List.mem_cons, List.mem_singleton,
        List.not_mem_nil, or_false] at he
      rcases he with ((he | he | he) | he) | he
      · subst he; rfl
      · subst he; rfl
      · subst he; rfl
      · obtain ⟨n, ret, hrecv⟩ := recvLoop_trace_recv env.reads [] e he
        subst hrecv; rfl
      · subst he; rfl

theorem SSL_read_pos (c : ClientEnv) (num : Nat) (h : 0 < (SSL_read c num).1) :
    c.readFault = none
      ∧ SSL_read c num = (((((firstRecord c.records).take num).length : Nat) : Int), (firstRecord c.records).take num) := by
  unfold SSL_read at h ⊢
  cases hf : c.readFault with
  | some e =>
    rw [hf] at h
    simp only at h
    omega
  | none => simp

theorem handle_client_read_ok (sock : Int) (c : ClientEnv) (lb : LoadBalancer)
    (h : 0 < (SSL_read c BUFFER_SIZE).1) :
    handle_client sock c lb
      = (lb.getNextBackend.2,
          [Event.sslRead BUFFER_SIZE (((firstRecord c.records).take BUFFER_SIZE).length : Nat),
           Event.getNextBackend,
           Event.log (forwardingMessage lb.getNextBackend.1.1 lb.getNextBackend.1.2),
           Event.forward ((firstRecord c.records).take BUFFER_SIZE) lb.getNextBackend.1.1
             lb.getNextBackend.1.2]
          ++ (forward_to_backend ((firstRecord c.records).take BUFFER_SIZE) lb.getNextBackend.1.1
                lb.getNextBackend.1.2
                (c.backend lb.getNextBackend.1.1 lb.getNextBackend.1.2)).trace
          ++ [Event.sslWrite
                (forward_to_backend ((firstRecord c.records).take BUFFER_SIZE) lb.getNextBackend.1.1
                  lb.getNextBackend.1.2
                  (c.backend lb.getNextBackend.1.1 lb.getNextBackend.1.2)).response
                (toInt32 (forward_to_backend ((firstRecord c.records).take BUFFER_SIZE)
                  lb.getNextBackend.1.1 lb.getNextBackend.1.2
                  (c.backend lb.getNextBackend.1.1 lb.getNextBackend.1.2)).response.length),
              Event.log "Response sent to client"]) := by
  have hr := (SSL_read_pos c BUFFER_SIZE h).2
  have hpos : ¬ (((((firstRecord c.records).take BUFFER_SIZE).length : Nat) : Int) ≤ 0) := by
    rw [hr] at h
    exact not_le.mpr h
  unfold handle_client
  rw [hr]
  simp only [hpos, if_false, Int.toNat_ofNat, List.take_length]

theorem handle_client_read_failed (sock : Int) (c : ClientEnv) (lb : LoadBalancer)
    (h : (SSL_read c BUFFER_SIZE).1 ≤ 0) :
    handle_client sock c lb
      = (lb, [Event.sslRead BUFFER_SIZE (SSL_read c BUFFER_SIZE).1,
              Event.errPrint,
              Event.log "Error: Failed to read from SSL connection"]) := by
  unfold handle_client
  simp only [h, if_true]

theorem handshake_error_ne_forwarding (host : String) (port : Int) :
    "Error: SSL handshake failed" ≠ forwardingMessage host port := by
  intro h
  have := congrArg String.data h
  simp [forwardingMessage, String.data_append] at this

/-- Claim C10.  When the handshake has succeeded and the single `SSL_read`
returns `0` or a negative value, `handle_client` makes exactly three calls (the
read, the OpenSSL error print, the log entry "Error: Failed to read from SSL
connection") and returns: the load balancer and its cursor are unchanged,
`getNextBackend` is not called, no backend call is made, nothing is written to
the client and "Response sent to client" is not logged. -/
theorem handle_client_read_failure_stops (sock : Int) (c : ClientEnv) (lb : LoadBalancer)
    (h : (SSL_read c BUFFER_SIZE).1 ≤ 0) :
    (handle_client sock c lb).2
        = [Event.sslRead BUFFER_SIZE (SSL_read c BUFFER_SIZE).1, Event.errPrint,
           Event.log "Error: Failed to read from SSL connection"]
    ∧ logEntries (handle_client sock c lb).2 = ["Error: Failed to read from SSL connection"]
    ∧ (handle_client sock c lb).1 = lb
    ∧ (handle_client sock c lb).1.cursor = lb.cursor
    ∧ Event.getNextBackend ∉ (handle_client sock c lb).2
    ∧ (∀ e ∈ (handle_client sock c lb).2, e.isBackendCall = false)
    ∧ (∀ e ∈ (handle_client sock c lb).2, e.isSslWrite = false)
    ∧ Event.log "Response sent to client" ∉ (handle_client sock c lb).2 := by
  rw [handle_client_read_failed sock c lb h]
  refine ⟨rfl, rfl, rfl, rfl, ?_, ?_, ?_, ?_⟩
  · simp
  · intro e he
    simp only [List.mem_cons, List.mem_singleton, List.not_mem_nil, or_false] at he
    rcases he with he | he | he <;> subst he <;> rfl
  · intro e he
    simp only [List.mem_cons, List.mem_singleton, List.not_mem_nil, or_false] at he
    rcases he with he | he | he <;> subst he <;> rfl
  · simp

/-- Witness for claim C10: a client that closes after the handshake without
sending anything. -/
theorem handle_client_read_failure_stops_witness :
    (handle_client 4 muteClient mainPool).2
        = [Event.sslRead BUFFER_SIZE (SSL_read muteClient BUFFER_SIZE).1, Event.errPrint,
           Event.log "Error: Failed to read from SSL connection"]
    ∧ logEntries (handle_client 4 muteClient mainPool).2
        = ["Error: Failed to read from SSL connection"]
    ∧ (handle_client 4 muteClient mainPool).1 = mainPool
    ∧ (handle_client 4 muteClient mainPool).1.cursor = mainPool.cursor
    ∧ Event.getNextBackend ∉ (handle_client 4 muteClient mainPool).2
    ∧ (∀ e ∈ (handle_client 4 muteClient mainPool).2, e.isBackendCall = false)
    ∧ (∀ e ∈ (handle_client 4 muteClient mainPool).2, e.isSslWrite = false)
    ∧ Event.log "Response sent to client" ∉ (handle_client 4 muteClient mainPool).2 :=
  handle_client_read_failure_stops 4 muteClient mainPool (by decide)

theorem sslWriteArgs_connector (l : List Event)
    (h : ∀ e ∈ l, e.isConnectorCall = true) : sslWriteArgs l = [] := by
  apply filterMap_eq_nil_of_forall
  intro e he
  have := h e he
  cases e <;> first | rfl | (simp [Event.isConnectorCall] at this)

theorem sessionOps_connector (l : List Event)
    (h : ∀ e ∈ l, e.isConnectorCall = true) : sessionOps l = [] := by
  apply filterMap_eq_nil_of_forall
  intro e he
  have := h e he
  cases e <;> first | rfl | (simp [Event.isConnectorCall] at this)

theorem countP_isAccept_connector (l : List Event)
    (h : ∀ e ∈ l, e.isConnectorCall = true) : l.countP Event.isAccept = 0 := by
  rw [List.countP_eq_zero]
  intro e he
  have := h e he
  cases e <;> first | (simp [Event.isConnectorCall] at this; done) | simp [Event.isAccept]

theorem sessionRequest_read_ok (c : ClientEnv) (h : 0 < (SSL_read c BUFFER_SIZE).1) :
    sessionRequest c = (firstRecord c.records).take BUFFER_SIZE := by
  unfold sessionRequest
  rw [(SSL_read_pos c BUFFER_SIZE h).2]
  simp only [Int.toNat_ofNat, List.take_length]

theorem handle_client_trace_read_ok (sock : Int) (c : ClientEnv) (lb : LoadBalancer)
    (h : 0 < (SSL_read c BUFFER_SIZE).1) :
    (handle_client sock c lb).2
      = [Event.sslRead BUFFER_SIZE (SSL_read c BUFFER_SIZE).1,
         Event.getNextBackend,
         Event.log (forwardingMessage lb.getNextBackend.1.1 lb.getNextBackend.1.2),
         Event.forward (sessionRequest c) lb.getNextBackend.1.1 lb.getNextBackend.1.2]
        ++ (forward_to_backend (sessionRequest c) lb.getNextBackend.1.1
              lb.getNextBackend.1.2
              (c.backend lb.getNextBackend.1.1 lb.getNextBackend.1.2)).trace
        ++ [Event.sslWrite (sessionResponse c lb) (toInt32 (sessionResponse c lb).length),
            Event.log "Response sent to client"] := by
  rw [handle_client_read_ok sock c lb h]
  unfold sessionResponse
  rw [sessionRequest_read_ok c h]
  have hr := (SSL_read_pos c BUFFER_SIZE h).2
  rw [hr]

theorem handle_client_sslWriteArgs (sock : Int) (c : ClientEnv) (lb : LoadBalancer)
    (h : 0 < (SSL_read c BUFFER_SIZE).1) :
    sslWriteArgs (handle_client sock c lb).2
      = [(sessionResponse c lb, toInt32 (sessionResponse c lb).length)] := by
  rw [handle_client_trace_read_ok sock c lb h]
  have hfwd := sslWriteArgs_connector _
    (forward_to_backend_trace_connector (sessionRequest c) lb.getNextBackend.1.1
      lb.getNextBackend.1.2 (c.backend lb.getNextBackend.1.1 lb.getNextBackend.1.2))
  unfold sslWriteArgs at hfwd ⊢
  simp only [List.filterMap_append, hfwd]
  simp [List.filterMap_cons]

theorem toInt32_small (n : Nat) (h : n < 2147483648) : toInt32 n = (n : Int) := by
  unfold toInt32
  have hmod : n % 4294967296 = n := Nat.mod_eq_of_lt (by omega)
  rw [hmod]
  simp [h]

theorem length_flatten_replicate {α : Type} (n : Nat) (l : List α) :
    ((List.replicate n l).flatten).length = n * l.length := by
  induction n with
  | zero => simp
  | succ k ih =>
    rw [List.replicate_succ, List.flatten_cons, List.length_append, ih, Nat.succ_mul]
    omega

/-- Below the range of `int` the relay is verbatim: when the request read
succeeds and the string returned by `forward_to_backend` is shorter than `2^31`
bytes, `handle_client` calls `SSL_write` exactly once, with that string as
buffer and its length as length. -/
theorem handle_client_relays_short_response (sock : Int) (c : ClientEnv) (lb : LoadBalancer)
    (h : 0 < (SSL_read c BUFFER_SIZE).1)
    (hsize : (sessionResponse c lb).length < 2147483648) :
    sslWriteArgs (handle_client sock c lb).2
        = [(sessionResponse c lb, ((sessionResponse c lb).length : Int))]
    ∧ sslWritten (handle_client sock c lb).2 = [sessionResponse c lb] := by
  have hargs := handle_client_sslWriteArgs sock c lb h
  rw [toInt32_small _ hsize] at hargs
  refine ⟨hargs, ?_⟩
  unfold sslWritten
  rw [hargs]
  simp

theorem floodBackend_response (request : Bytes) (host : String) (port : Int) :
    (forward_to_backend request host port floodBackend).response
      = (List.replicate 524288 (List.replicate 4096 (0 : Byte))).flatten := by
  have hch : ∀ c ∈ List.replicate 524288 (List.replicate 4096 (0 : Byte)),
      1 ≤ c.length ∧ c.length ≤ BUFFER_SIZE := by
    intro c hc
    rw [List.eq_of_mem_replicate hc, List.length_replicate]
    exact ⟨by norm_num, le_refl _⟩
  have hs : (0 : Int) ≤ floodBackend.socketRet := by
    show (0 : Int) ≤ 3
    norm_num
  have hc : (0 : Int) ≤ floodBackend.connectRet := le_refl _
  rw [forward_to_backend_chunks request host port floodBackend
    (List.replicate 524288 (List.replicate 4096 (0 : Byte))) [] hs hc hch rfl]

theorem floodBackend_response_length (request : Bytes) (host : String) (port : Int) :
    (forward_to_backend request host port floodBackend).response.length = 2147483648 := by
  rw [floodBackend_response, length_flatten_replicate, List.length_replicate]

theorem toInt32_two_pow_31 : toInt32 2147483648 = -2147483648 := by
  unfold toInt32
  norm_num

theorem sessionResponse_of_backend (c : ClientEnv) (lb : LoadBalancer) (env : BackendEnv)
    (h : ∀ host port, c.backend host port = env) :
    sessionResponse c lb
      = (forward_to_backend (sessionRequest c) lb.getNextBackend.1.1 lb.getNextBackend.1.2
          env).response := by
  unfold sessionResponse
  rw [h]

theorem floodClient_backend (host : String) (port : Int) :
    floodClient.backend host port = floodBackend := rfl

theorem floodClient_response_length :
    (sessionResponse floodClient mainPool).length = 2147483648 :=
  (congrArg List.length
    (sessionResponse_of_backend floodClient mainPool floodBackend floodClient_backend)).trans
    (floodBackend_response_length _ _ _)

theorem take_negative_length_ne (r : Bytes) (hr : r.length = 2147483648) :
    List.map (fun w : Bytes × Int => w.1.take w.2.toNat) [(r, -2147483648)] ≠ [r] := by
  intro heq
  simp only [List.map_cons, List.map_nil] at heq
  have h0 := (List.cons_eq_cons.mp heq).1
  have hz : Int.toNat (-2147483648) = 0 := by decide
  rw [hz, List.take_zero] at h0
  have hl := congrArg List.length h0
  rw [hr, List.length_nil] at hl
  omega

/-- Claim C5, at the failing input: a backend that answers with `2^31` bytes
(524288 reads of 4096 bytes).  `forward_to_backend` returns all of them, but
the length `handle_client` hands to `SSL_write` is the `int` `-2147483648`, so
the bytes written are not the returned string. -/
theorem handle_client_write_length_wraps :
    (sessionResponse floodClient mainPool).length = 2147483648
    ∧ sslWriteArgs (handle_client 4 floodClient mainPool).2
        = [(sessionResponse floodClient mainPool, -2147483648)]
    ∧ sslWritten (handle_client 4 floodClient mainPool).2
        ≠ [sessionResponse floodClient mainPool] := by
  have hread : 0 < (SSL_read floodClient BUFFER_SIZE).1 := by decide
  have hargs := handle_client_sslWriteArgs 4 floodClient mainPool hread
  rw [floodClient_response_length, toInt32_two_pow_31] at hargs
  refine ⟨floodClient_response_length, hargs, ?_⟩
  unfold sslWritten
  rw [hargs]
  exact take_negative_length_ne _ floodClient_response_length

/-! ## The accept loop -/

theorem sessionOps_append (xs ys : List Event) :
    sessionOps (xs ++ ys) = sessionOps xs ++ sessionOps ys := by
  simp [sessionOps, List.filterMap_append]

theorem run_server_iteration_handshake_failed (a : AcceptEnv) (lb : LoadBalancer)
    (h0 : 0 ≤ a.acceptRet) (hh : a.client.handshakeRet ≤ 0) :
    run_server_iteration a lb
      = (lb, [Event.accept a.acceptRet, Event.sslNew a.acceptRet, Event.sslSetFd a.acceptRet,
              Event.sslAccept a.client.handshakeRet, Event.errPrint,
              Event.log "Error: SSL handshake failed",
              Event.sslShutdown a.acceptRet, Event.sslFree a.acceptRet,
              Event.closeClientSock a.acceptRet]) := by
  unfold run_server_iteration
  simp only [not_lt.mpr h0, hh, if_true, if_false]

theorem run_server_iteration_handshake_ok (a : AcceptEnv) (lb : LoadBalancer)
    (h0 : 0 ≤ a.acceptRet) (hh : 0 < a.client.handshakeRet) :
    run_server_iteration a lb
      = ((handle_client a.acceptRet a.client lb).1,
          [Event.accept a.acceptRet, Event.sslNew a.acceptRet, Event.sslSetFd a.acceptRet,
           Event.sslAccept a.client.handshakeRet]
          ++ (handle_client a.acceptRet a.client lb).2
          ++ [Event.sslShutdown a.acceptRet, Event.sslFree a.acceptRet,
              Event.closeClientSock a.acceptRet]) := by
  unfold run_server_iteration
  simp only [not_lt.mpr h0, not_le.mpr hh, if_false]

theorem sessionOps_handle_client (sock : Int) (c : ClientEnv) (lb : LoadBalancer) :
    (0 < (SSL_read c BUFFER_SIZE).1 →
      sessionOps (handle_client sock c lb).2
        = [Op.requestRead, Op.backendSelect, Op.backendForward, Op.responseWrite])
    ∧ ((SSL_read c BUFFER_SIZE).1 ≤ 0 →
      sessionOps (handle_client sock c lb).2 = [Op.requestRead]) := by
  constructor
  · intro h
    rw [handle_client_trace_read_ok sock c lb h]
    simp only [sessionOps_append, sessionOps_connector _
      (forward_to_backend_trace_connector _ _ _ _)]
    rfl
  · intro h
    rw [handle_client_read_failed sock c lb h]
    rfl

theorem sessionOps_iteration (a : AcceptEnv) (lb : LoadBalancer) (h0 : 0 ≤ a.acceptRet) :
    (a.client.handshakeRet ≤ 0 →
      sessionOps (run_server_iteration a lb).2 = workOrder.take 1 ++ teardownOrder)
    ∧ (0 < a.client.handshakeRet → (SSL_read a.client BUFFER_SIZE).1 ≤ 0 →
      sessionOps (run_server_iteration a lb).2 = workOrder.take 2 ++ teardownOrder)
    ∧ (0 < a.client.handshakeRet → 0 < (SSL_read a.client BUFFER_SIZE).1 →
      sessionOps (run_server_iteration a lb).2 = workOrder ++ teardownOrder) := by
  refine ⟨?_, ?_, ?_⟩
  · intro hh
    rw [run_server_iteration_handshake_failed a lb h0 hh]
    rfl
  · intro hh hr
    rw [run_server_iteration_handshake_ok a lb h0 hh]
    simp only [sessionOps_append, (sessionOps_handle_client a.acceptRet a.client lb).2 hr]
    rfl
  · intro hh hr
    rw [run_server_iteration_handshake_ok a lb h0 hh]
    simp only [sessionOps_append, (sessionOps_handle_client a.acceptRet a.client lb).1 hr]
    rfl

theorem sessionOps_iteration_cases (a : AcceptEnv) (lb : LoadBalancer) (h0 : 0 ≤ a.acceptRet) :
    sessionOps (run_server_iteration a lb).2 = workOrder.take 1 ++ teardownOrder
    ∨ sessionOps (run_server_iteration a lb).2 = workOrder.take 2 ++ teardownOrder
    ∨ sessionOps (run_server_iteration a lb).2 = workOrder.take 5 ++ teardownOrder := by
  have h := sessionOps_iteration a lb h0
  by_cases hh : a.client.handshakeRet ≤ 0
  · exact Or.inl (h.1 hh)
  · by_cases hr : (SSL_read a.client BUFFER_SIZE).1 ≤ 0
    · exact Or.inr (Or.inl (h.2.1 (not_le.mp hh) hr))
    · exact Or.inr (Or.inr (h.2.2 (not_le.mp hh) (not_le.mp hr)))

/-- Claim C2.  When a connection is accepted and its TLS handshake fails
(`SSL_accept` returns `0` or less), the iteration of the accept loop leaves the
load balancer untouched, makes no `getNextBackend` call and no backend call
(`forward_to_backend` is not entered), never logs a "Forwarding request to
backend" entry, and its only log entry is "Error: SSL handshake failed". -/
theorem handshake_failure_skips_backend (a : AcceptEnv) (lb : LoadBalancer)
    (h0 : 0 ≤ a.acceptRet) (hh : a.client.handshakeRet ≤ 0) :
    (run_server_iteration a lb).1 = lb
    ∧ Event.getNextBackend ∉ (run_server_iteration a lb).2
    ∧ (∀ e ∈ (run_server_iteration a lb).2, e.isBackendCall = false)
    ∧ (∀ host port, Event.log (forwardingMessage host port) ∉ (run_server_iteration a lb).2)
    ∧ logEntries (run_server_iteration a lb).2 = ["Error: SSL handshake failed"] := by
  rw [run_server_iteration_handshake_failed a lb h0 hh]
  refine ⟨rfl, ?_, ?_, ?_, rfl⟩
  · simp
  · intro e he
    simp only [List.mem_cons, List.mem_singleton, List.not_mem_nil, or_false] at he
    rcases he with he | he | he | he | he | he | he | he | he <;> subst he <;> rfl
  · intro host port hmem
    simp only [List.mem_cons, List.mem_singleton, List.not_mem_nil, or_false,
      Event.log.injEq, reduceCtorEq, false_or] at hmem
    exact handshake_error_ne_forwarding host port hmem.symm

/-- Witness for claim C2: an accepted connection whose handshake fails. -/
theorem handshake_failure_skips_backend_witness :
    (run_server_iteration ⟨4, badHandshakeClient⟩ mainPool).1 = mainPool
    ∧ Event.getNextBackend ∉ (run_server_iteration ⟨4, badHandshakeClient⟩ mainPool).2
    ∧ (∀ e ∈ (run_server_iteration ⟨4, badHandshakeClient⟩ mainPool).2,
        e.isBackendCall = false)
    ∧ (∀ host port, Event.log (forwardingMessage host port)
        ∉ (run_server_iteration ⟨4, badHandshakeClient⟩ mainPool).2)
    ∧ logEntries (run_server_iteration ⟨4, badHandshakeClient⟩ mainPool).2
        = ["Error: SSL handshake failed"] :=
  handshake_failure_skips_backend ⟨4, badHandshakeClient⟩ mainPool (by decide) (by decide)

/-- Claim C9.  For every accepted connection the session steps of the iteration
are an initial part of handshake, request read, backend selection, backend
forward, response write, followed by the teardown (TLS shutdown, TLS free,
socket close): they form a subsequence of the full order with no step repeated,
and when the handshake and the request read both succeed they are the full
order, each step exactly once. -/
theorem session_steps_in_order (a : AcceptEnv) (lb : LoadBalancer) (h0 : 0 ≤ a.acceptRet) :
    (∃ k, 1 ≤ k ∧ k ≤ 5 ∧
      sessionOps (run_server_iteration a lb).2 = workOrder.take k ++ teardownOrder)
    ∧ (sessionOps (run_server_iteration a lb).2).Sublist (workOrder ++ teardownOrder)
    ∧ (sessionOps (run_server_iteration a lb).2).Nodup
    ∧ (0 < a.client.handshakeRet → 0 < (SSL_read a.client 4096).1 →
        sessionOps (run_server_iteration a lb).2 = workOrder ++ teardownOrder) := by
  refine ⟨?_, ?_, ?_, (sessionOps_iteration a lb h0).2.2⟩
  · rcases sessionOps_iteration_cases a lb h0 with h | h | h
    · exact ⟨1, by decide, by decide, h⟩
    · exact ⟨2, by decide, by decide, h⟩
    · exact ⟨5, by decide, by decide, h⟩
  · rcases sessionOps_iteration_cases a lb h0 with h | h | h <;> rw [h] <;> decide
  · rcases sessionOps_iteration_cases a lb h0 with h | h | h <;> rw [h] <;> decide

/-- Witness for claim C9: a session that runs to the end. -/
theorem session_steps_in_order_witness :
    (∃ k, 1 ≤ k ∧ k ≤ 5 ∧
      sessionOps (run_server_iteration ⟨4, goodClient⟩ mainPool).2
        = workOrder.take k ++ teardownOrder)
    ∧ (sessionOps (run_server_iteration ⟨4, goodClient⟩ mainPool).2).Sublist
        (workOrder ++ teardownOrder)
    ∧ (sessionOps (run_server_iteration ⟨4, goodClient⟩ mainPool).2).Nodup
    ∧ (0 < goodClient.handshakeRet → 0 < (SSL_read goodClient 4096).1 →
        sessionOps (run_server_iteration ⟨4, goodClient⟩ mainPool).2
          = workOrder ++ teardownOrder) :=
  session_steps_in_order ⟨4, goodClient⟩ mainPool (by decide)

theorem countP_isAccept_handle_client (sock : Int) (c : ClientEnv) (lb : LoadBalancer) :
    (handle_client sock c lb).2.countP Event.isAccept = 0 := by
  by_cases h : 0 < (SSL_read c BUFFER_SIZE).1
  · rw [handle_client_trace_read_ok sock c lb h]
    simp only [List.countP_append, countP_isAccept_connector _
      (forward_to_backend_trace_connector _ _ _ _)]
    simp [List.countP_cons, Event.isAccept]
  · rw [handle_client_read_failed sock c lb (not_lt.mp h)]
    simp [List.countP_cons, Event.isAccept]

theorem countP_isAccept_iteration (a : AcceptEnv) (lb : LoadBalancer) :
    (run_server_iteration a lb).2.countP Event.isAccept = 1 := by
  by_cases h0 : 0 ≤ a.acceptRet
  · by_cases hh : a.client.handshakeRet ≤ 0
    · rw [run_server_iteration_handshake_failed a lb h0 hh]
      simp [List.countP_cons, Event.isAccept]
    · rw [run_server_iteration_handshake_ok a lb h0 (not_le.mp hh)]
      simp only [List.countP_append, countP_isAccept_handle_client]
      simp [List.countP_cons, Event.isAccept]
  · unfold run_server_iteration
    simp only [not_le.mp h0, if_true]
    simp [List.countP_cons, Event.isAccept]

theorem run_server_loop_append (pre post : List AcceptEnv) (lb : LoadBalancer) :
    run_server_loop (pre ++ post) lb
      = ((run_server_loop post (run_server_loop pre lb).1).1,
          (run_server_loop pre lb).2 ++ (run_server_loop post (run_server_loop pre lb).1).2) := by
  induction pre generalizing lb with
  | nil => simp [run_server_loop]
  | cons a rest ih =>
    simp only [List.cons_append]
    rw [run_server_loop, ih]
    simp [run_server_loop]

theorem countP_isAccept_loop (conns : List AcceptEnv) (lb : LoadBalancer) :
    (run_server_loop conns lb).2.countP Event.isAccept = conns.length := by
  induction conns generalizing lb with
  | nil => simp [run_server_loop]
  | cons a rest ih =>
    simp only [run_server_loop, List.countP_append, countP_isAccept_iteration, ih,
      List.length_cons]
    omega

theorem run_server_iteration_shape (a : AcceptEnv) (lb : LoadBalancer)
    (h0 : 0 ≤ a.acceptRet) :
    ∃ body, (run_server_iteration a lb).2
        = Event.accept a.acceptRet :: body
          ++ [Event.sslShutdown a.acceptRet, Event.sslFree a.acceptRet,
              Event.closeClientSock a.acceptRet]
      ∧ body.countP Event.isAccept = 0 := by
  by_cases hh : a.client.handshakeRet ≤ 0
  · refine ⟨[Event.sslNew a.acceptRet, Event.sslSetFd a.acceptRet,
      Event.sslAccept a.client.handshakeRet, Event.errPrint,
      Event.log "Error: SSL handshake failed"], ?_, ?_⟩
    · rw [run_server_iteration_handshake_failed a lb h0 hh]
      rfl
    · simp [List.countP_cons, Event.isAccept]
  · refine ⟨[Event.sslNew a.acceptRet, Event.sslSetFd a.acceptRet,
      Event.sslAccept a.client.handshakeRet] ++ (handle_client a.acceptRet a.client lb).2,
      ?_, ?_⟩
    · rw [run_server_iteration_handshake_ok a lb h0 (not_le.mp hh)]
      simp
    · simp only [List.countP_append, countP_isAccept_handle_client]
      simp [List.countP_cons, Event.isAccept]

/-- In a run in which every library call returns, each iteration for an
accepted connection ends with `SSL_shutdown`, `SSL_free` and
`close(client_sock)`, each performed exactly once and before any further
`accept`, and the loop goes on with one `accept` per iteration. -/
theorem accepted_connection_torn_down_once (pre post : List AcceptEnv) (a : AcceptEnv)
    (lb : LoadBalancer) (h0 : 0 ≤ a.acceptRet) :
    (run_server_loop (pre ++ a :: post) lb).2
        = (run_server_loop pre lb).2
          ++ (run_server_iteration a (run_server_loop pre lb).1).2
          ++ (run_server_loop post
                (run_server_iteration a (run_server_loop pre lb).1).1).2
    ∧ (∃ body, (run_server_iteration a (run_server_loop pre lb).1).2
          = Event.accept a.acceptRet :: body
            ++ [Event.sslShutdown a.acceptRet, Event.sslFree a.acceptRet,
                Event.closeClientSock a.acceptRet]
        ∧ body.countP Event.isAccept = 0)
    ∧ (sessionOps (run_server_iteration a (run_server_loop pre lb).1).2).count Op.tlsShutdown = 1
    ∧ (sessionOps (run_server_iteration a (run_server_loop pre lb).1).2).count Op.tlsFree = 1
    ∧ (sessionOps (run_server_iteration a (run_server_loop pre lb).1).2).count Op.socketClose = 1
    ∧ (run_server_loop (pre ++ a :: post) lb).2.countP Event.isAccept
        = pre.length + 1 + post.length := by
  refine ⟨?_, run_server_iteration_shape a _ h0, ?_, ?_, ?_, ?_⟩
  · rw [run_server_loop_append]
    simp only [run_server_loop, List.append_assoc]
  · rcases sessionOps_iteration_cases a (run_server_loop pre lb).1 h0 with h | h | h <;>
      rw [h] <;> decide
  · rcases sessionOps_iteration_cases a (run_server_loop pre lb).1 h0 with h | h | h <;>
      rw [h] <;> decide
  · rcases sessionOps_iteration_cases a (run_server_loop pre lb).1 h0 with h | h | h <;>
      rw [h] <;> decide
  · rw [countP_isAccept_loop]
    simp
    omega

theorem run_server_iteration_process_never (a : AcceptEnv) (lb : LoadBalancer) :
    run_server_iteration_process a Sigpipe.never lb
      = (ProcessState.running (run_server_iteration a lb).1, (run_server_iteration a lb).2) := by
  unfold run_server_iteration_process
  by_cases h : 0 ≤ a.acceptRet ∧ 0 < a.client.handshakeRet
  · simp only [h, and_self, if_true]
  · simp only [h, if_false]

/-- Claim C6, at the failing input: two clients connect; the first completes
the handshake, sends its request and resets the connection, so that the write
inside `SSL_shutdown` raises `SIGPIPE`.  The process is ended by the signal:
`SSL_shutdown` was called once, `SSL_free` and `close(client_sock)` never, and
the second connection is never accepted. -/
theorem sigpipe_in_teardown_ends_server :
    (run_server_process
        [(⟨5, goodClient⟩, Sigpipe.inSslShutdown), (⟨6, goodClient⟩, Sigpipe.never)]
        mainPool).1 = ProcessState.killed SIGPIPE
    ∧ (sessionOps (run_server_process
        [(⟨5, goodClient⟩, Sigpipe.inSslShutdown), (⟨6, goodClient⟩, Sigpipe.never)]
        mainPool).2).count Op.tlsShutdown = 1
    ∧ (sessionOps (run_server_process
        [(⟨5, goodClient⟩, Sigpipe.inSslShutdown), (⟨6, goodClient⟩, Sigpipe.never)]
        mainPool).2).count Op.tlsFree = 0
    ∧ (sessionOps (run_server_process
        [(⟨5, goodClient⟩, Sigpipe.inSslShutdown), (⟨6, goodClient⟩, Sigpipe.never)]
        mainPool).2).count Op.socketClose = 0
    ∧ (run_server_process
        [(⟨5, goodClient⟩, Sigpipe.inSslShutdown), (⟨6, goodClient⟩, Sigpipe.never)]
        mainPool).2.countP Event.isAccept = 1
    ∧ (run_server_process
        [(⟨5, goodClient⟩, Sigpipe.inSslShutdown), (⟨6, goodClient⟩, Sigpipe.never)]
        mainPool).2.getLast? = some (Event.sslShutdown 5) := by
  decide

/-! ## Shutdown -/

/-- Claim C7.  When the listening socket is open (`server_sock >= 0`) and the
TLS context exists, `signal_handler(s)` closes the listening socket, frees the
TLS context and ends with `exit(s)`; for every `s` from `0` to `255`, which
covers all signal numbers, the exit status the process reports is `s`. -/
theorem signal_handler_releases_and_exits (g : Globals) (ctx : Nat) (s : Int)
    (hsock : 0 ≤ g.server_sock) (hctx : g.ctx = some ctx) :
    signal_handler g s
        = [Event.stderr ("Received signal: " ++ toString s ++ ", shutting down server..."),
           Event.closeServerSock g.server_sock,
           Event.stderr "Server socket closed.",
           Event.sslCtxFree ctx,
           Event.evpCleanup,
           Event.exit s]
    ∧ Event.closeServerSock g.server_sock ∈ signal_handler g s
    ∧ Event.sslCtxFree ctx ∈ signal_handler g s
    ∧ (signal_handler g s).getLast? = some (Event.exit s)
    ∧ exitArgument (signal_handler g s) = some s
    ∧ (0 ≤ s → s < 256 → (exitArgument (signal_handler g s)).map reportedStatus = some s) := by
  have htrace : signal_handler g s
        = [Event.stderr ("Received signal: " ++ toString s ++ ", shutting down server..."),
           Event.closeServerSock g.server_sock,
           Event.stderr "Server socket closed.",
           Event.sslCtxFree ctx,
           Event.evpCleanup,
           Event.exit s] := by
    unfold signal_handler
    rw [hctx]
    simp [hsock]
  rw [htrace]
  refine ⟨rfl, by simp, by simp, by simp, rfl, ?_⟩
  intro h1 h2
  simp only [exitArgument, Option.map_some', reportedStatus, Option.some.injEq]
  exact Int.emod_eq_of_lt h1 h2

/-- Witness for claim C7: `SIGTERM` (15) delivered to a running server. -/
theorem signal_handler_releases_and_exits_witness :
    signal_handler runningServer 15
        = [Event.stderr ("Received signal: " ++ toString (15 : Int)
              ++ ", shutting down server..."),
           Event.closeServerSock runningServer.server_sock,
           Event.stderr "Server socket closed.",
           Event.sslCtxFree 1,
           Event.evpCleanup,
           Event.exit 15]
    ∧ Event.closeServerSock runningServer.server_sock ∈ signal_handler runningServer 15
    ∧ Event.sslCtxFree 1 ∈ signal_handler runningServer 15
    ∧ (signal_handler runningServer 15).getLast? = some (Event.exit 15)
    ∧ exitArgument (signal_handler runningServer 15) = some 15
    ∧ ((0 : Int) ≤ 15 → (15 : Int) < 256 →
        (exitArgument (signal_handler runningServer 15)).map reportedStatus = some 15) :=
  signal_handler_releases_and_exits runningServer 1 15 (by decide) rfl

/-! ## OCSP refresh -/

/-- Claim C8.  When the certificate yields no responder URL (the URL stack is
null or empty), `fetch_ocsp_response` logs exactly one entry, which starts with
"Warning:", and returns no response; the cycle of `schedule_ocsp_updates` makes
no call to the staple setter, and the staple of the TLS context after the cycle
is the staple before it. -/
theorem ocsp_cycle_without_url_keeps_staple (setterDefined : Bool) (env : OcspEnv)
    (staple : Option Bytes) (len0 : Int)
    (hurl : env.urls = none ∨ env.urls = some []) :
    (fetch_ocsp_response env len0).data = none
    ∧ logEntries (fetch_ocsp_response env len0).trace
        = ["Warning: No OCSP responder URL found in certificate"]
    ∧ (∀ msg ∈ logEntries (fetch_ocsp_response env len0).trace,
        msg.data.take 8 = "Warning:".data)
    ∧ (∀ e ∈ (schedule_ocsp_updates_cycle setterDefined env staple).2, e.isSetStaple = false)
    ∧ (schedule_ocsp_updates_cycle setterDefined env staple).1 = staple := by
  have hfetch : ∀ len : Int, fetch_ocsp_response env len
      = ⟨none, len,
          [Event.x509GetOcsp,
           Event.stderr "No OCSP responder URL found in certificate.",
           Event.log "Warning: No OCSP responder URL found in certificate",
           Event.x509EmailFree]⟩ := by
    intro len
    unfold fetch_ocsp_response
    rcases hurl with h | h <;> rw [h]
  have hcycle : schedule_ocsp_updates_cycle setterDefined env staple
      = (staple,
          [Event.x509GetOcsp,
           Event.stderr "No OCSP responder URL found in certificate.",
           Event.log "Warning: No OCSP responder URL found in certificate",
           Event.x509EmailFree,
           Event.sleepHours 24]) := by
    unfold schedule_ocsp_updates_cycle
    rw [hfetch 0]
    rfl
  rw [hfetch len0, hcycle]
  refine ⟨rfl, rfl, ?_, ?_, rfl⟩
  · intro msg hmsg
    have hm : msg = "Warning: No OCSP responder URL found in certificate" := by
      simpa [logEntries] using hmsg
    subst hm
    decide
  · intro e he
    simp only [List.mem_cons, List.mem_singleton, List.not_mem_nil, or_false] at he
    rcases he with he | he | he | he | he <;> subst he <;> rfl

/-- Witness for claim C8: a certificate with an empty responder list, while a
staple is installed. -/
theorem ocsp_cycle_without_url_keeps_staple_witness :
    (fetch_ocsp_response noResponderCert 0).data = none
    ∧ logEntries (fetch_ocsp_response noResponderCert 0).trace
        = ["Warning: No OCSP responder URL found in certificate"]
    ∧ (∀ msg ∈ logEntries (fetch_ocsp_response noResponderCert 0).trace,
        msg.data.take 8 = "Warning:".data)
    ∧ (∀ e ∈ (schedule_ocsp_updates_cycle true noResponderCert (some [48, 3])).2,
        e.isSetStaple = false)
    ∧ (schedule_ocsp_updates_cycle true noResponderCert (some [48, 3])).1 = some [48, 3] :=
  ocsp_cycle_without_url_keeps_staple true noResponderCert (some [48, 3]) 0 (Or.inr rfl)

end LightProxy
